import Mathlib

/-!
Verification of the chronological as-of feature accumulation engine of the
Tennis-ML-APA repository (`pull-data/src/04_win_computer.py`,
`05_breakpoints_and_tiebreak_computer.py`, `06_features_adder.py`).

Modelling conventions:
* a pandas row is a `MatchRecord`; missing numeric cells (NaN) are `none`;
* Python floats are modelled by exact rationals (`ℚ`), and `round(x, 2)` by
  rational rounding to two decimals (none of the verified statements depends
  on the tie-breaking behaviour of float rounding);
* `defaultdict` accumulators are total functions with value `0` everywhere
  not yet written;
* `pandas.sort_values(['tournament_date', 'match_number'])` on several key
  columns is a stable lexicographic sort, modelled by `List.mergeSort`.
-/

/-- One row of the merged ATP matches table: the columns read by the
accumulation engine.  Missing numeric cells are `none`. -/
structure MatchRecord where
  tournament_date : Nat
  match_number : Nat
  tournament_year : Int
  winner_player_name : String
  loser_player_name : String
  court_surface : String
  final_score : Option String
  winner_break_points_saved : Option Nat
  winner_break_points_faced : Option Nat
  loser_break_points_saved : Option Nat
  loser_break_points_faced : Option Nat
  winner_first_serves_in : Option Nat
  winner_serve_points_total : Option Nat
  winner_aces : Option Nat
  winner_double_faults : Option Nat
  winner_service_games : Option Nat
  loser_first_serves_in : Option Nat
  loser_serve_points_total : Option Nat
  loser_aces : Option Nat
  loser_double_faults : Option Nat
  loser_service_games : Option Nat
  winner_atp_rank : Option ℚ
  loser_atp_rank : Option ℚ
  deriving Repr, DecidableEq

/-- Comparison used by `df.sort_values(['tournament_date', 'match_number'])`:
date ascending, then match number ascending. -/
def recordLE (a b : MatchRecord) : Bool :=
  decide (a.tournament_date < b.tournament_date) ||
    (a.tournament_date == b.tournament_date &&
      decide (a.match_number ≤ b.match_number))

/-- The chronological sequencer: a stable sort by (date, match number), as
performed at the top of every engine function. -/
def sequencer (l : List MatchRecord) : List MatchRecord :=
  l.mergeSort recordLE

/-! ### Tiebreak extraction (`count_tiebreaks_in_score`) -/

/-- Python `str.split()`: cut at every whitespace character (empty pieces are
filtered away afterwards, so this models splitting on whitespace runs). -/
def splitEach : List Char → List (List Char)
  | [] => [[]]
  | c :: rest =>
    if c.isWhitespace then [] :: splitEach rest
    else
      match splitEach rest with
      | [] => [[c]]
      | t :: ts => (c :: t) :: ts

/-- The set tokens of a score string (Python `score.strip().split()`). -/
def scoreTokens (s : String) : List (List Char) :=
  (splitEach s.data).filter (fun t => !t.isEmpty)

/-- Scan for `re.sub(r'\x7b(\x5b0-9\x5d+\x7d)', ...)`; see `stripTb`.  The
fuel argument only bounds the recursion and is always instantiated with the
length of the input, which every recursive call strictly decreases. -/
def stripTbAux : Nat → List Char → List Char
  | 0, _ => []
  | _ + 1, [] => []
  | fuel + 1, c :: rest =>
    if c = '(' then
      match rest.dropWhile Char.isDigit with
      | ')' :: rest2 =>
        if (rest.takeWhile Char.isDigit).isEmpty then c :: stripTbAux fuel rest
        else stripTbAux fuel rest2
      | _ => c :: stripTbAux fuel rest
    else c :: stripTbAux fuel rest

/-- Python `re.sub` deleting every parenthesized digit group from a set
token, e.g. `7-6(3)` becomes `7-6`. -/
def stripTb (tok : List Char) : List Char :=
  stripTbAux tok.length tok

/-- Python `needle in hay` substring test on character lists. -/
def containsSeq (needle : List Char) : List Char → Bool
  | [] => needle.isEmpty
  | c :: rest => needle.isPrefixOf (c :: rest) || containsSeq needle rest

/-- Contribution of one set token to `(tiebreaks_won, tiebreaks_played)` for
the side given by `player_won_match`, following the `if '7-6' in set_main /
elif '6-7' in set_main` branches of the source. -/
def setTbContribution (player_won_match : Bool) (set_score : List Char) :
    Nat × Nat :=
  let set_main := stripTb set_score
  if containsSeq "7-6".data set_main then
    (if player_won_match then 1 else 0, 1)
  else if containsSeq "6-7".data set_main then
    (if player_won_match then 0 else 1, 1)
  else (0, 0)

/-- Accumulation of the per-set contributions over the token list (the `for
set_score in sets` loop). -/
def tbCountsList (player_won_match : Bool) : List (List Char) → Nat × Nat
  | [] => (0, 0)
  | t :: ts =>
    ((setTbContribution player_won_match t).1 +
        (tbCountsList player_won_match ts).1,
      (setTbContribution player_won_match t).2 +
        (tbCountsList player_won_match ts).2)

/-- `count_tiebreaks_in_score(score, player_won_match)` from
`05_breakpoints_and_tiebreak_computer.py`: returns
`(tiebreaks_won, tiebreaks_played)`; a missing (`NaN`) or empty score yields
`(0, 0)`. -/
def count_tiebreaks_in_score (score : Option String)
    (player_won_match : Bool) : Nat × Nat :=
  match score with
  | none => (0, 0)
  | some s =>
    if s.data = [] then (0, 0)
    else tbCountsList player_won_match (scoreTokens s)

/-! ### Shared percentage policy -/

/-- The pattern `(num / den * 100) if den > 0 else 0.0` used for every
percentage feature. -/
def pct100 (num den : Nat) : ℚ :=
  if 0 < den then (num : ℚ) / den * 100 else 0

/-- The pattern `(num / den) if den > 0 else 0.0` used for the per-game
serve rates. -/
def rateOf (num den : Nat) : ℚ :=
  if 0 < den then (num : ℚ) / den else 0

/-- Python `round(x, 2)`, idealized over exact rationals. -/
def round2 (x : ℚ) : ℚ := (round (x * 100) : ℤ) / 100

/-- Increment of a `defaultdict(int)` keyed by player. -/
def bumpP (m : String → Nat) (p : String) (k : Nat) : String → Nat :=
  fun q => if q = p then m q + k else m q

/-- Increment of a `defaultdict(lambda: defaultdict(int))` keyed by player
and year. -/
def bumpPY (m : String → Int → Nat) (p : String) (y : Int) (k : Nat) :
    String → Int → Nat :=
  fun q z => if q = p ∧ z = y then m q z + k else m q z

/-! ### `04_win_computer.compute_yearly_stats` -/

/-- The six columns appended by `compute_yearly_stats`. -/
structure YearlyOut where
  winner_wins_ytd : Nat
  winner_losses_ytd : Nat
  winner_win_pct_ytd : ℚ
  loser_wins_ytd : Nat
  loser_losses_ytd : Nat
  loser_win_pct_ytd : ℚ
  deriving Repr, DecidableEq

/-- Pre-match snapshot emission of `compute_yearly_stats` for one row. -/
def yearlySnap (yearly_wins yearly_losses : String → Int → Nat)
    (r : MatchRecord) : YearlyOut :=
  let year := r.tournament_year
  let winner_wins_before := yearly_wins r.winner_player_name year
  let winner_losses_before := yearly_losses r.winner_player_name year
  let loser_wins_before := yearly_wins r.loser_player_name year
  let loser_losses_before := yearly_losses r.loser_player_name year
  { winner_wins_ytd := winner_wins_before
    winner_losses_ytd := winner_losses_before
    winner_win_pct_ytd :=
      round2 (pct100 winner_wins_before
        (winner_wins_before + winner_losses_before))
    loser_wins_ytd := loser_wins_before
    loser_losses_ytd := loser_losses_before
    loser_win_pct_ytd :=
      round2 (pct100 loser_wins_before
        (loser_wins_before + loser_losses_before)) }

/-- The row loop of `compute_yearly_stats`: read the pre-match snapshot,
emit it, then commit the win/loss deltas. -/
def compute_yearly_go (yearly_wins yearly_losses : String → Int → Nat) :
    List MatchRecord → List YearlyOut
  | [] => []
  | r :: rs =>
    yearlySnap yearly_wins yearly_losses r ::
      compute_yearly_go
        (bumpPY yearly_wins r.winner_player_name r.tournament_year 1)
        (bumpPY yearly_losses r.loser_player_name r.tournament_year 1) rs

/-- `compute_yearly_stats` of `04_win_computer.py` (it first re-sorts its
input). -/
def compute_yearly_stats (l : List MatchRecord) : List YearlyOut :=
  compute_yearly_go (fun _ _ => 0) (fun _ _ => 0) (sequencer l)

/-! ### `04_win_computer.compute_h2h_stats` -/

/-- The four columns appended by `compute_h2h_stats`. -/
structure H2HOut where
  winner_h2h_wins : Nat
  winner_h2h_losses : Nat
  loser_h2h_wins : Nat
  loser_h2h_losses : Nat
  deriving Repr, DecidableEq

/-- The alphabetically ordered head-to-head key of the source. -/
def pairKey (winner loser : String) : String × String :=
  if winner < loser then (winner, loser) else (loser, winner)

/-- Pre-match snapshot emission of `compute_h2h_stats` for one row, reading
the record under the alphabetically ordered key through the
`winner_is_first` flag. -/
def h2hSnap (h2h_records : String × String → Nat × Nat) (r : MatchRecord) :
    H2HOut :=
  let current_record :=
    h2h_records (pairKey r.winner_player_name r.loser_player_name)
  if r.winner_player_name < r.loser_player_name then
    { winner_h2h_wins := current_record.1
      winner_h2h_losses := current_record.2
      loser_h2h_wins := current_record.2
      loser_h2h_losses := current_record.1 }
  else
    { winner_h2h_wins := current_record.2
      winner_h2h_losses := current_record.1
      loser_h2h_wins := current_record.1
      loser_h2h_losses := current_record.2 }

/-- Post-match state commit of `compute_h2h_stats` for one row: the winner
side of the stored pair gains one win. -/
def h2hUpdate (h2h_records : String × String → Nat × Nat)
    (r : MatchRecord) : String × String → Nat × Nat :=
  let h2h_key := pairKey r.winner_player_name r.loser_player_name
  let current_record := h2h_records h2h_key
  fun k =>
    if k = h2h_key then
      if r.winner_player_name < r.loser_player_name then
        (current_record.1 + 1, current_record.2)
      else (current_record.1, current_record.2 + 1)
    else h2h_records k

/-- The row loop of `compute_h2h_stats`. -/
def compute_h2h_go (h2h_records : String × String → Nat × Nat) :
    List MatchRecord → List H2HOut
  | [] => []
  | r :: rs =>
    h2hSnap h2h_records r :: compute_h2h_go (h2hUpdate h2h_records r) rs

/-- `compute_h2h_stats` of `04_win_computer.py`. -/
def compute_h2h_stats (l : List MatchRecord) : List H2HOut :=
  compute_h2h_go (fun _ => (0, 0)) (sequencer l)

/-! ### `05_breakpoints_and_tiebreak_computer.compute_breakpoint_and_tiebreak_stats` -/

/-- The twenty-four columns appended by
`compute_breakpoint_and_tiebreak_stats`. -/
structure BpTbOut where
  winner_bp_won_ytd : Nat
  winner_bp_faced_ytd : Nat
  winner_bp_pct_ytd : ℚ
  loser_bp_won_ytd : Nat
  loser_bp_faced_ytd : Nat
  loser_bp_pct_ytd : ℚ
  winner_bp_won_career : Nat
  winner_bp_faced_career : Nat
  winner_bp_pct_career : ℚ
  loser_bp_won_career : Nat
  loser_bp_faced_career : Nat
  loser_bp_pct_career : ℚ
  winner_tb_won_ytd : Nat
  winner_tb_played_ytd : Nat
  winner_tb_pct_ytd : ℚ
  loser_tb_won_ytd : Nat
  loser_tb_played_ytd : Nat
  loser_tb_pct_ytd : ℚ
  winner_tb_won_career : Nat
  winner_tb_played_career : Nat
  winner_tb_pct_career : ℚ
  loser_tb_won_career : Nat
  loser_tb_played_career : Nat
  loser_tb_pct_career : ℚ
  deriving Repr, DecidableEq

/-- The tracking dictionaries of
`compute_breakpoint_and_tiebreak_stats`. -/
structure BpTbState where
  career_bp_won : String → Nat
  career_bp_faced : String → Nat
  career_tb_won : String → Nat
  career_tb_played : String → Nat
  yearly_bp_won : String → Int → Nat
  yearly_bp_faced : String → Int → Nat
  yearly_tb_won : String → Int → Nat
  yearly_tb_played : String → Int → Nat

/-- The row loop of `compute_breakpoint_and_tiebreak_stats`. -/
def compute_bptb_go (st : BpTbState) : List MatchRecord → List BpTbOut
  | [] => []
  | r :: rs =>
    let year := r.tournament_year
    let winner := r.winner_player_name
    let loser := r.loser_player_name
    let score := r.final_score
    let winner_bp_saved := r.winner_break_points_saved.getD 0
    let winner_bp_faced_match := r.winner_break_points_faced.getD 0
    let loser_bp_saved := r.loser_break_points_saved.getD 0
    let loser_bp_faced_match := r.loser_break_points_faced.getD 0
    let winner_tb_match := count_tiebreaks_in_score score true
    let loser_tb_match := count_tiebreaks_in_score score false
    let wbw := st.yearly_bp_won winner year
    let wbf := st.yearly_bp_faced winner year
    let lbw := st.yearly_bp_won loser year
    let lbf := st.yearly_bp_faced loser year
    let wtw := st.yearly_tb_won winner year
    let wtp := st.yearly_tb_played winner year
    let ltw := st.yearly_tb_won loser year
    let ltp := st.yearly_tb_played loser year
    let wbwc := st.career_bp_won winner
    let wbfc := st.career_bp_faced winner
    let lbwc := st.career_bp_won loser
    let lbfc := st.career_bp_faced loser
    let wtwc := st.career_tb_won winner
    let wtpc := st.career_tb_played winner
    let ltwc := st.career_tb_won loser
    let ltpc := st.career_tb_played loser
    let out : BpTbOut :=
      { winner_bp_won_ytd := wbw
        winner_bp_faced_ytd := wbf
        winner_bp_pct_ytd := round2 (pct100 wbw wbf)
        loser_bp_won_ytd := lbw
        loser_bp_faced_ytd := lbf
        loser_bp_pct_ytd := round2 (pct100 lbw lbf)
        winner_bp_won_career := wbwc
        winner_bp_faced_career := wbfc
        winner_bp_pct_career := round2 (pct100 wbwc wbfc)
        loser_bp_won_career := lbwc
        loser_bp_faced_career := lbfc
        loser_bp_pct_career := round2 (pct100 lbwc lbfc)
        winner_tb_won_ytd := wtw
        winner_tb_played_ytd := wtp
        winner_tb_pct_ytd := round2 (pct100 wtw wtp)
        loser_tb_won_ytd := ltw
        loser_tb_played_ytd := ltp
        loser_tb_pct_ytd := round2 (pct100 ltw ltp)
        winner_tb_won_career := wtwc
        winner_tb_played_career := wtpc
        winner_tb_pct_career := round2 (pct100 wtwc wtpc)
        loser_tb_won_career := ltwc
        loser_tb_played_career := ltpc
        loser_tb_pct_career := round2 (pct100 ltwc ltpc) }
    let st2 : BpTbState :=
      { career_bp_won :=
          bumpP (bumpP st.career_bp_won winner winner_bp_saved) loser
            loser_bp_saved
        career_bp_faced :=
          bumpP (bumpP st.career_bp_faced winner winner_bp_faced_match) loser
            loser_bp_faced_match
        career_tb_won :=
          bumpP (bumpP st.career_tb_won winner winner_tb_match.1) loser
            loser_tb_match.1
        career_tb_played :=
          bumpP (bumpP st.career_tb_played winner winner_tb_match.2) loser
            loser_tb_match.2
        yearly_bp_won :=
          bumpPY (bumpPY st.yearly_bp_won winner year winner_bp_saved) loser
            year loser_bp_saved
        yearly_bp_faced :=
          bumpPY (bumpPY st.yearly_bp_faced winner year winner_bp_faced_match)
            loser year loser_bp_faced_match
        yearly_tb_won :=
          bumpPY (bumpPY st.yearly_tb_won winner year winner_tb_match.1) loser
            year loser_tb_match.1
        yearly_tb_played :=
          bumpPY (bumpPY st.yearly_tb_played winner year winner_tb_match.2)
            loser year loser_tb_match.2 }
    out :: compute_bptb_go st2 rs

/-- The zero-initialized tracking state. -/
def bptbInit : BpTbState :=
  { career_bp_won := fun _ => 0
    career_bp_faced := fun _ => 0
    career_tb_won := fun _ => 0
    career_tb_played := fun _ => 0
    yearly_bp_won := fun _ _ => 0
    yearly_bp_faced := fun _ _ => 0
    yearly_tb_won := fun _ _ => 0
    yearly_tb_played := fun _ _ => 0 }

/-- `compute_breakpoint_and_tiebreak_stats` of
`05_breakpoints_and_tiebreak_computer.py`. -/
def compute_breakpoint_and_tiebreak_stats (l : List MatchRecord) :
    List BpTbOut :=
  compute_bptb_go bptbInit (sequencer l)

/-! ### `06_features_adder.compute_surface_specific_stats` -/

/-- The eighteen columns appended by `compute_surface_specific_stats`. -/
structure SurfaceOut where
  winner_clay_wins : Nat
  winner_clay_losses : Nat
  winner_clay_win_pct : ℚ
  winner_grass_wins : Nat
  winner_grass_losses : Nat
  winner_grass_win_pct : ℚ
  winner_hard_wins : Nat
  winner_hard_losses : Nat
  winner_hard_win_pct : ℚ
  loser_clay_wins : Nat
  loser_clay_losses : Nat
  loser_clay_win_pct : ℚ
  loser_grass_wins : Nat
  loser_grass_losses : Nat
  loser_grass_win_pct : ℚ
  loser_hard_wins : Nat
  loser_hard_losses : Nat
  loser_hard_win_pct : ℚ
  deriving Repr, DecidableEq

/-- The row loop of `compute_surface_specific_stats`; the state maps player
and surface to `[wins, losses]`. -/
def compute_surface_go (surface_stats : String → String → Nat × Nat) :
    List MatchRecord → List SurfaceOut
  | [] => []
  | r :: rs =>
    let winner := r.winner_player_name
    let loser := r.loser_player_name
    let surface := r.court_surface
    let wc := surface_stats winner "Clay"
    let wg := surface_stats winner "Grass"
    let wh := surface_stats winner "Hard"
    let lc := surface_stats loser "Clay"
    let lg := surface_stats loser "Grass"
    let lh := surface_stats loser "Hard"
    let out : SurfaceOut :=
      { winner_clay_wins := wc.1
        winner_clay_losses := wc.2
        winner_clay_win_pct := round2 (pct100 wc.1 (wc.1 + wc.2))
        winner_grass_wins := wg.1
        winner_grass_losses := wg.2
        winner_grass_win_pct := round2 (pct100 wg.1 (wg.1 + wg.2))
        winner_hard_wins := wh.1
        winner_hard_losses := wh.2
        winner_hard_win_pct := round2 (pct100 wh.1 (wh.1 + wh.2))
        loser_clay_wins := lc.1
        loser_clay_losses := lc.2
        loser_clay_win_pct := round2 (pct100 lc.1 (lc.1 + lc.2))
        loser_grass_wins := lg.1
        loser_grass_losses := lg.2
        loser_grass_win_pct := round2 (pct100 lg.1 (lg.1 + lg.2))
        loser_hard_wins := lh.1
        loser_hard_losses := lh.2
        loser_hard_win_pct := round2 (pct100 lh.1 (lh.1 + lh.2)) }
    let st1 := fun p s =>
      if p = winner ∧ s = surface then
        ((surface_stats p s).1 + 1, (surface_stats p s).2)
      else surface_stats p s
    let st2 := fun p s =>
      if p = loser ∧ s = surface then ((st1 p s).1, (st1 p s).2 + 1)
      else st1 p s
    out :: compute_surface_go st2 rs

/-- `compute_surface_specific_stats` of `06_features_adder.py`. -/
def compute_surface_specific_stats (l : List MatchRecord) : List SurfaceOut :=
  compute_surface_go (fun _ _ => (0, 0)) (sequencer l)

/-! ### `06_features_adder.compute_recent_form` -/

/-- The four columns appended by `compute_recent_form`. -/
structure FormOut where
  winner_last5_wins : Nat
  winner_last10_wins : Nat
  loser_last5_wins : Nat
  loser_last10_wins : Nat
  deriving Repr, DecidableEq

/-- Python `results[-n:]`: the final `n` entries of the outcome list. -/
def lastN (n : Nat) (l : List Nat) : List Nat := l.drop (l.length - n)

/-- Pre-match snapshot emission of `compute_recent_form` for one row: the
last-5/last-10 win counts read before appending the current outcome. -/
def formSnap (recent_results : String → List Nat) (r : MatchRecord) :
    FormOut :=
  let w_results := recent_results r.winner_player_name
  let l_results := recent_results r.loser_player_name
  { winner_last5_wins := (lastN 5 w_results).sum
    winner_last10_wins := (lastN 10 w_results).sum
    loser_last5_wins := (lastN 5 l_results).sum
    loser_last10_wins := (lastN 10 l_results).sum }

/-- Post-match state commit of `compute_recent_form` for one row: append 1
to the winner's outcome list, then 0 to the loser's. -/
def formUpdate (recent_results : String → List Nat) (r : MatchRecord) :
    String → List Nat :=
  let st1 := fun p => if p = r.winner_player_name then recent_results p ++ [1]
    else recent_results p
  fun p => if p = r.loser_player_name then st1 p ++ [0] else st1 p

/-- The row loop of `compute_recent_form`; the state maps each player to
its append-only outcome list (1 = win, 0 = loss). -/
def compute_form_go (recent_results : String → List Nat) :
    List MatchRecord → List FormOut
  | [] => []
  | r :: rs =>
    formSnap recent_results r ::
      compute_form_go (formUpdate recent_results r) rs

/-- `compute_recent_form` of `06_features_adder.py`. -/
def compute_recent_form (l : List MatchRecord) : List FormOut :=
  compute_form_go (fun _ => []) (sequencer l)

/-! ### Calendar arithmetic for `06_features_adder.compute_fatigue_and_experience`

The source parses the numeric `YYYYMMDD` date with
`pd.to_datetime(..., format='%Y%m%d')` (proleptic Gregorian calendar) and
subtracts datetimes, reading off whole days.  A datetime is modelled by its
Gregorian ordinal day number. -/

/-- Year field of a numeric `YYYYMMDD` date. -/
def dateYear (n : Nat) : Nat := n / 10000

/-- Month field of a numeric `YYYYMMDD` date. -/
def dateMonth (n : Nat) : Nat := n / 100 % 100

/-- Day field of a numeric `YYYYMMDD` date. -/
def dateDay (n : Nat) : Nat := n % 100

/-- Gregorian leap-year test. -/
def leapYear (y : Nat) : Bool :=
  (y % 4 == 0 && !(y % 100 == 0)) || y % 400 == 0

/-- Length of a month (`0` for an out-of-range month number). -/
def monthLength (leap : Bool) (m : Nat) : Nat :=
  match m with
  | 1 => 31 | 2 => if leap then 29 else 28 | 3 => 31 | 4 => 30
  | 5 => 31 | 6 => 30 | 7 => 31 | 8 => 31 | 9 => 30 | 10 => 31
  | 11 => 30 | 12 => 31 | _ => 0

/-- Days in a common year strictly before month `m`. -/
def monthCumDays (m : Nat) : Nat :=
  match m with
  | 1 => 0 | 2 => 31 | 3 => 59 | 4 => 90 | 5 => 120 | 6 => 151
  | 7 => 181 | 8 => 212 | 9 => 243 | 10 => 273 | 11 => 304 | 12 => 334
  | _ => 0

/-- Number of Gregorian leap years in `1..n`. -/
def leapCount (n : Nat) : Nat := n / 4 - n / 100 + n / 400

/-- Gregorian ordinal day number of a numeric `YYYYMMDD` date (day 1 is
January 1 of year 1), the day count underlying datetime subtraction. -/
def dateOrdinal (n : Nat) : Nat :=
  365 * (dateYear n - 1) + leapCount (dateYear n - 1) +
    monthCumDays (dateMonth n) +
    (if leapYear (dateYear n) && decide (2 < dateMonth n) then 1 else 0) +
    dateDay n

/-- A numeric `YYYYMMDD` value denoting a real Gregorian calendar date. -/
def ValidDate (n : Nat) : Prop :=
  1 ≤ dateYear n ∧ 1 ≤ dateMonth n ∧ dateMonth n ≤ 12 ∧ 1 ≤ dateDay n ∧
    dateDay n ≤ monthLength (leapYear (dateYear n)) (dateMonth n)

instance (n : Nat) : Decidable (ValidDate n) := by
  unfold ValidDate; infer_instance

/-! ### `06_features_adder.compute_fatigue_and_experience` -/

/-- The four columns appended by `compute_fatigue_and_experience`; a missing
`days_since_last_match` (`np.nan`, first appearance) is `none`. -/
structure FatigueOut where
  winner_days_since_last_match : Option Int
  loser_days_since_last_match : Option Int
  winner_career_matches : Nat
  loser_career_matches : Nat
  deriving Repr, DecidableEq

/-- Pre-match snapshot emission of `compute_fatigue_and_experience` for one
row: days since the stored last match date (missing on a first
appearance) and the career match count so far. -/
def fatigueSnap (last_match_date : String → Option Int)
    (total_matches : String → Nat) (r : MatchRecord) : FatigueOut :=
  let match_date : Int := dateOrdinal r.tournament_date
  { winner_days_since_last_match :=
      (last_match_date r.winner_player_name).map (fun o => match_date - o)
    loser_days_since_last_match :=
      (last_match_date r.loser_player_name).map (fun o => match_date - o)
    winner_career_matches := total_matches r.winner_player_name
    loser_career_matches := total_matches r.loser_player_name }

/-- Post-match commit of the stored last match date for both players. -/
def fatigueUpdateLast (last_match_date : String → Option Int)
    (r : MatchRecord) : String → Option Int :=
  let last1 := fun p => if p = r.winner_player_name then
    some (dateOrdinal r.tournament_date : Int) else last_match_date p
  fun p => if p = r.loser_player_name then
    some (dateOrdinal r.tournament_date : Int) else last1 p

/-- Post-match commit of the career match count for both players. -/
def fatigueUpdateTot (total_matches : String → Nat) (r : MatchRecord) :
    String → Nat :=
  let tot1 := fun p => if p = r.winner_player_name then total_matches p + 1
    else total_matches p
  fun p => if p = r.loser_player_name then tot1 p + 1 else tot1 p

/-- The row loop of `compute_fatigue_and_experience`; `last_match_date`
stores the ordinal of each player's last match datetime, `total_matches`
the career match count. -/
def compute_fatigue_go (last_match_date : String → Option Int)
    (total_matches : String → Nat) : List MatchRecord → List FatigueOut
  | [] => []
  | r :: rs =>
    fatigueSnap last_match_date total_matches r ::
      compute_fatigue_go (fatigueUpdateLast last_match_date r)
        (fatigueUpdateTot total_matches r) rs

/-- `compute_fatigue_and_experience` of `06_features_adder.py`. -/
def compute_fatigue_and_experience (l : List MatchRecord) : List FatigueOut :=
  compute_fatigue_go (fun _ => none) (fun _ => 0) (sequencer l)

/-- Specification-side view of the stored `last_match_date` after a prefix
of records: the ordinal of the last match of the prefix involving the
player, else the initial entry. -/
def stAfterLast (st : String → Option Int) (pref : List MatchRecord)
    (p : String) : Option Int :=
  match (pref.filter (fun m => decide (p = m.winner_player_name ∨
      p = m.loser_player_name))).getLast? with
  | some m => some (dateOrdinal m.tournament_date : Int)
  | none => st p

/-! ### `06_features_adder.compute_serve_stats` -/

/-- The per-player serve accumulator
`[first_serves_in, serve_points, aces, double_faults, service_games]`. -/
structure ServeCell where
  first_in : Nat
  serve_pts : Nat
  aces : Nat
  dfs : Nat
  service_games : Nat
  deriving Repr, DecidableEq

/-- The six columns appended by `compute_serve_stats`. -/
structure ServeOut where
  winner_first_serve_pct_career : ℚ
  winner_aces_per_service_game : ℚ
  winner_df_per_service_game : ℚ
  loser_first_serve_pct_career : ℚ
  loser_aces_per_service_game : ℚ
  loser_df_per_service_game : ℚ
  deriving Repr, DecidableEq

/-- Pre-match snapshot emission of `compute_serve_stats` for one row. -/
def serveSnap (serve_stats : String → ServeCell) (r : MatchRecord) :
    ServeOut :=
  let w := serve_stats r.winner_player_name
  let l := serve_stats r.loser_player_name
  { winner_first_serve_pct_career := round2 (pct100 w.first_in w.serve_pts)
    winner_aces_per_service_game := round2 (rateOf w.aces w.service_games)
    winner_df_per_service_game := round2 (rateOf w.dfs w.service_games)
    loser_first_serve_pct_career := round2 (pct100 l.first_in l.serve_pts)
    loser_aces_per_service_game := round2 (rateOf l.aces l.service_games)
    loser_df_per_service_game := round2 (rateOf l.dfs l.service_games) }

/-- Post-match state commit of `compute_serve_stats` for one row (missing
match counters are treated as 0). -/
def serveUpdate (serve_stats : String → ServeCell) (r : MatchRecord) :
    String → ServeCell :=
  let winner := r.winner_player_name
  let loser := r.loser_player_name
  let st1 := fun p =>
    if p = winner then
      { first_in := (serve_stats p).first_in + r.winner_first_serves_in.getD 0
        serve_pts :=
          (serve_stats p).serve_pts + r.winner_serve_points_total.getD 0
        aces := (serve_stats p).aces + r.winner_aces.getD 0
        dfs := (serve_stats p).dfs + r.winner_double_faults.getD 0
        service_games :=
          (serve_stats p).service_games + r.winner_service_games.getD 0 }
    else serve_stats p
  fun p =>
    if p = loser then
      { first_in := (st1 p).first_in + r.loser_first_serves_in.getD 0
        serve_pts := (st1 p).serve_pts + r.loser_serve_points_total.getD 0
        aces := (st1 p).aces + r.loser_aces.getD 0
        dfs := (st1 p).dfs + r.loser_double_faults.getD 0
        service_games := (st1 p).service_games + r.loser_service_games.getD 0 }
    else st1 p

/-- The row loop of `compute_serve_stats`. -/
def compute_serve_go (serve_stats : String → ServeCell) :
    List MatchRecord → List ServeOut
  | [] => []
  | r :: rs =>
    serveSnap serve_stats r :: compute_serve_go (serveUpdate serve_stats r) rs

/-- The zero serve accumulator. -/
def serveInit : String → ServeCell :=
  fun _ =>
    { first_in := 0, serve_pts := 0, aces := 0, dfs := 0, service_games := 0 }

/-- `compute_serve_stats` of `06_features_adder.py`. -/
def compute_serve_stats (l : List MatchRecord) : List ServeOut :=
  compute_serve_go serveInit (sequencer l)

/-! ### `06_features_adder.compute_additional_features`: the upset flag -/

/-- The `is_upset` column:
`(df['winner_atp_rank'] > df['loser_atp_rank']).astype(int)`.  A pandas
comparison against a missing value is `False`. -/
def is_upset (winner_atp_rank loser_atp_rank : Option ℚ) : Nat :=
  match winner_atp_rank, loser_atp_rank with
  | some w, some l => if l < w then 1 else 0
  | _, _ => 0

/-! ### Concrete sample rows -/

/-- A concrete match row used to exercise the engine on explicit input. -/
def sampleRecordA : MatchRecord :=
  { tournament_date := 20200101, match_number := 1, tournament_year := 2020
    winner_player_name := "A", loser_player_name := "B"
    court_surface := "Hard", final_score := some "6-4 7-6(3) 6-2"
    winner_break_points_saved := some 3, winner_break_points_faced := some 4
    loser_break_points_saved := some 1, loser_break_points_faced := some 2
    winner_first_serves_in := some 40, winner_serve_points_total := some 60
    winner_aces := some 5, winner_double_faults := some 2
    winner_service_games := some 10
    loser_first_serves_in := some 35, loser_serve_points_total := some 55
    loser_aces := some 3, loser_double_faults := some 4
    loser_service_games := some 9
    winner_atp_rank := some 10, loser_atp_rank := some 5 }

/-- A concrete match row with both ATP ranks missing. -/
def sampleRecordB : MatchRecord :=
  { sampleRecordA with winner_atp_rank := none, loser_atp_rank := none }

theorem recordLE_trans (a b c : MatchRecord) :
    recordLE a b → recordLE b c → recordLE a c := by
  simp only [recordLE, Bool.or_eq_true, Bool.and_eq_true, decide_eq_true_eq,
    beq_iff_eq]
  omega

theorem recordLE_total (a b : MatchRecord) : recordLE a b || recordLE b a := by
  simp only [recordLE, Bool.or_eq_true, Bool.and_eq_true, decide_eq_true_eq,
    beq_iff_eq]
  omega

theorem setTb_spec (t : List Char) :
    (setTbContribution true t).1 + (setTbContribution false t).1 =
        (setTbContribution true t).2 ∧
      (setTbContribution true t).2 = (setTbContribution false t).2 := by
  unfold setTbContribution
  by_cases h1 : containsSeq "7-6".data (stripTb t) = true
  · simp [h1]
  · by_cases h2 : containsSeq "6-7".data (stripTb t) = true <;> simp [h1, h2]

theorem tbCountsList_played_eq (ts : List (List Char)) :
    (tbCountsList true ts).2 = (tbCountsList false ts).2 := by
  induction ts with
  | nil => rfl
  | cons t ts ih =>
    have h := (setTb_spec t).2
    simp only [tbCountsList]
    omega

theorem tbCountsList_won_add (ts : List (List Char)) :
    (tbCountsList true ts).1 + (tbCountsList false ts).1 =
      (tbCountsList true ts).2 := by
  induction ts with
  | nil => rfl
  | cons t ts ih =>
    have h1 := (setTb_spec t).1
    simp only [tbCountsList]
    omega

theorem tbCountsList_true_won (ts : List (List Char)) :
    (tbCountsList true ts).1 =
      ts.countP (fun t => containsSeq "7-6".data (stripTb t)) := by
  induction ts with
  | nil => rfl
  | cons t ts ih =>
    simp only [tbCountsList, setTbContribution, List.countP_cons]
    by_cases h1 : containsSeq "7-6".data (stripTb t) = true
    · simp [h1, ih] <;> omega
    · by_cases h2 : containsSeq "6-7".data (stripTb t) = true <;>
        simp [h1, h2, ih] <;> omega

theorem tbCountsList_false_won (ts : List (List Char)) :
    (tbCountsList false ts).1 =
      ts.countP (fun t => !containsSeq "7-6".data (stripTb t) &&
        containsSeq "6-7".data (stripTb t)) := by
  induction ts with
  | nil => rfl
  | cons t ts ih =>
    simp only [tbCountsList, setTbContribution, List.countP_cons]
    by_cases h1 : containsSeq "7-6".data (stripTb t) = true
    · simp [h1, ih] <;> omega
    · by_cases h2 : containsSeq "6-7".data (stripTb t) = true <;>
        simp [h1, h2, ih] <;> omega

theorem tbCountsList_played_countP (w : Bool) (ts : List (List Char)) :
    (tbCountsList w ts).2 =
      ts.countP (fun t => containsSeq "7-6".data (stripTb t) ||
        containsSeq "6-7".data (stripTb t)) := by
  induction ts with
  | nil => rfl
  | cons t ts ih =>
    simp only [tbCountsList, setTbContribution, List.countP_cons]
    by_cases h1 : containsSeq "7-6".data (stripTb t) = true
    · simp [h1, ih] <;> omega
    · by_cases h2 : containsSeq "6-7".data (stripTb t) = true <;>
        simp [h1, h2, ih] <;> omega

theorem scoreTokens_of_data_nil {s : String} (h : s.data = []) :
    scoreTokens s = [] := by
  simp [scoreTokens, h, splitEach]

theorem bptb_go_length (rs : List MatchRecord) (st : BpTbState) :
    (compute_bptb_go st rs).length = rs.length := by
  induction rs generalizing st with
  | nil => rfl
  | cons r rs ih => simp [compute_bptb_go, ih]

/-- C1 counterexample.  On the score `3-6 6-7(5) 2-6` with A the match
winner, the source does NOT credit A with the `6-7` tiebreak: the claimed
extraction `(tiebreaks_won_by_A, tiebreaks_played) = (1, 1)` is false. -/
theorem tiebreak_attribution_counterexample :
    ¬ (count_tiebreaks_in_score (some "3-6 6-7(5) 2-6") true = (1, 1)) := by
  decide

/-- C1 amended.  The match winner is credited with a tiebreak win exactly
for the `7-6` sets, and the match LOSER is credited for the `6-7` sets
(those it won); in the scenario `3-6 6-7(5) 2-6`, A beats B, the extraction
yields `tiebreaks_played = 1`, `tiebreaks_won_by_A = 0` and
`tiebreaks_won_by_B = 1`. -/
theorem tiebreak_attribution_amended :
    (∀ s : String,
        (count_tiebreaks_in_score (some s) true).1 =
          (scoreTokens s).countP
            (fun t => containsSeq "7-6".data (stripTb t)) ∧
        (count_tiebreaks_in_score (some s) false).1 =
          (scoreTokens s).countP
            (fun t => !containsSeq "7-6".data (stripTb t) &&
              containsSeq "6-7".data (stripTb t))) ∧
      count_tiebreaks_in_score (some "3-6 6-7(5) 2-6") true = (0, 1) ∧
      count_tiebreaks_in_score (some "3-6 6-7(5) 2-6") false = (1, 1) := by
  refine ⟨fun s => ?_, by decide, by decide⟩
  by_cases h : s.data = []
  · simp [count_tiebreaks_in_score, h, scoreTokens_of_data_nil h]
  · simp [count_tiebreaks_in_score, h, tbCountsList_true_won,
      tbCountsList_false_won]

/-- C4 counterexample.  Tiebreak-set detection is not an exact match on the
stripped token: the token `17-6` strips to `17-6`, which is neither `7-6`
nor `6-7`, yet the source counts it as a played tiebreak (the check is a
substring test). -/
theorem tiebreak_detection_counterexample :
    ¬ ((count_tiebreaks_in_score (some "17-6") true).2 =
      (scoreTokens "17-6").countP
        (fun t => stripTb t == "7-6".data || stripTb t == "6-7".data)) := by
  decide

/-- C4 amended.  The score is split on whitespace, parenthesized digit
groups are stripped from each token, and a token counts as a tiebreak set
iff its stripped form CONTAINS `7-6` as a substring or, failing that,
contains `6-7`; a missing or empty score yields zero tiebreaks won and
played, and every record is still processed and emitted (one output row per
input row). -/
theorem tiebreak_detection_amended :
    (∀ w, count_tiebreaks_in_score none w = (0, 0) ∧
        count_tiebreaks_in_score (some "") w = (0, 0)) ∧
      (∀ (s : String) (w : Bool),
        (count_tiebreaks_in_score (some s) w).2 =
          (scoreTokens s).countP
            (fun t => containsSeq "7-6".data (stripTb t) ||
              containsSeq "6-7".data (stripTb t))) ∧
      (∀ l : List MatchRecord,
        (compute_breakpoint_and_tiebreak_stats l).length =
          (sequencer l).length) := by
  refine ⟨fun w => ⟨rfl, by cases w <;> decide⟩, fun s w => ?_,
    fun l => bptb_go_length _ _⟩
  by_cases h : s.data = []
  · simp [count_tiebreaks_in_score, h, scoreTokens_of_data_nil h]
  · simp [count_tiebreaks_in_score, h, tbCountsList_played_countP]

/-- C10.  The upset flag under missing ranks: a missing winner or loser
rank yields `is_upset = 0` (never a missing value, the flag is always 0 or
1), and `is_upset = 1` exactly when both ranks are present and the winner's
numeric rank is strictly greater than the loser's. -/
theorem upset_flag_missing_ranks (r : MatchRecord) :
    ((r.winner_atp_rank = none ∨ r.loser_atp_rank = none) →
        is_upset r.winner_atp_rank r.loser_atp_rank = 0) ∧
      (is_upset r.winner_atp_rank r.loser_atp_rank = 1 ↔
        ∃ w l, r.winner_atp_rank = some w ∧ r.loser_atp_rank = some l ∧
          l < w) ∧
      (is_upset r.winner_atp_rank r.loser_atp_rank = 0 ∨
        is_upset r.winner_atp_rank r.loser_atp_rank = 1) := by
  rcases r.winner_atp_rank with _ | w <;> rcases r.loser_atp_rank with _ | lr
  · simp [is_upset]
  · simp [is_upset]
  · simp [is_upset]
  · refine ⟨by simp, ?_, ?_⟩
    · constructor
      · intro h1
        refine ⟨w, lr, rfl, rfl, ?_⟩
        by_contra hlt
        simp [is_upset, hlt] at h1
      · rintro ⟨w2, l2, hw2, hl2, hlt⟩
        rw [Option.some_inj] at hw2 hl2
        subst hw2
        subst hl2
        simp [is_upset, hlt]
    · by_cases hlt : lr < w <;> simp [is_upset, hlt]

theorem countP_add_of_disjoint {α : Type} (l : List α) (p q : α → Bool)
    (h : ∀ x ∈ l, ¬(p x = true ∧ q x = true)) :
    l.countP p + l.countP q = l.countP (fun x => p x || q x) := by
  induction l with
  | nil => simp
  | cons a l ih =>
    have ha := h a (List.mem_cons_self a l)
    have ihl := ih fun x hx => h x (List.mem_cons_of_mem a hx)
    simp only [List.countP_cons]
    by_cases hp : p a = true
    · by_cases hq : q a = true
      · exact absurd ⟨hp, hq⟩ ha
      · simp only [hp, hq, Bool.true_or]
        simp
        omega
    · by_cases hq : q a = true <;>
        simp only [hp, hq, Bool.false_or] <;> simp <;> omega

theorem bumpPY_apply (m : String → Int → Nat) (p : String) (y : Int)
    (k : Nat) (q : String) (z : Int) :
    bumpPY m p y k q z = m q z + (if q = p ∧ z = y then k else 0) := by
  unfold bumpPY
  split <;> simp

theorem yearly_go_get (rs : List MatchRecord) :
    ∀ (W L : String → Int → Nat) (i : Nat) (r : MatchRecord),
      rs[i]? = some r →
      ∃ out, (compute_yearly_go W L rs)[i]? = some out ∧
        out.winner_wins_ytd = W r.winner_player_name r.tournament_year +
          (rs.take i).countP (fun m =>
            decide (r.winner_player_name = m.winner_player_name ∧
              r.tournament_year = m.tournament_year)) ∧
        out.winner_losses_ytd = L r.winner_player_name r.tournament_year +
          (rs.take i).countP (fun m =>
            decide (r.winner_player_name = m.loser_player_name ∧
              r.tournament_year = m.tournament_year)) ∧
        out.loser_wins_ytd = W r.loser_player_name r.tournament_year +
          (rs.take i).countP (fun m =>
            decide (r.loser_player_name = m.winner_player_name ∧
              r.tournament_year = m.tournament_year)) ∧
        out.loser_losses_ytd = L r.loser_player_name r.tournament_year +
          (rs.take i).countP (fun m =>
            decide (r.loser_player_name = m.loser_player_name ∧
              r.tournament_year = m.tournament_year)) := by
  induction rs with
  | nil => intro W L i r hr; simp at hr
  | cons r0 rs ih =>
    intro W L i r hr
    cases i with
    | zero =>
      rw [List.getElem?_cons_zero] at hr
      obtain rfl : r0 = r := by injection hr
      refine ⟨yearlySnap W L r0, by simp [compute_yearly_go], ?_, ?_, ?_, ?_⟩ <;>
        simp [yearlySnap]
    | succ i =>
      rw [List.getElem?_cons_succ] at hr
      obtain ⟨out, hget, e1, e2, e3, e4⟩ :=
        ih (bumpPY W r0.winner_player_name r0.tournament_year 1)
          (bumpPY L r0.loser_player_name r0.tournament_year 1) i r hr
      refine ⟨out, by simpa [compute_yearly_go] using hget, ?_, ?_, ?_, ?_⟩
      · rw [e1, bumpPY_apply, List.take_succ_cons, List.countP_cons]
        by_cases hc : r.winner_player_name = r0.winner_player_name ∧
            r.tournament_year = r0.tournament_year <;>
          simp [hc] <;> omega
      · rw [e2, bumpPY_apply, List.take_succ_cons, List.countP_cons]
        by_cases hc : r.winner_player_name = r0.loser_player_name ∧
            r.tournament_year = r0.tournament_year <;>
          simp [hc] <;> omega
      · rw [e3, bumpPY_apply, List.take_succ_cons, List.countP_cons]
        by_cases hc : r.loser_player_name = r0.winner_player_name ∧
            r.tournament_year = r0.tournament_year <;>
          simp [hc] <;> omega
      · rw [e4, bumpPY_apply, List.take_succ_cons, List.countP_cons]
        by_cases hc : r.loser_player_name = r0.loser_player_name ∧
            r.tournament_year = r0.tournament_year <;>
          simp [hc] <;> omega

/-- C2.  YTD no-lookahead: in the chronologically sorted pass, the
year-to-date wins plus losses emitted for each side at record `R` equal the
number of matches that player appears in (as winner or loser) with `R`'s
tournament year, strictly earlier in the sort order. -/
theorem ytd_no_lookahead (l : List MatchRecord)
    (hwl : ∀ m ∈ sequencer l, m.winner_player_name ≠ m.loser_player_name)
    (i : Nat) (r : MatchRecord) (out : YearlyOut)
    (hr : (sequencer l)[i]? = some r)
    (hout : (compute_yearly_stats l)[i]? = some out) :
    out.winner_wins_ytd + out.winner_losses_ytd =
      ((sequencer l).take i).countP (fun m =>
        decide (m.tournament_year = r.tournament_year ∧
          (m.winner_player_name = r.winner_player_name ∨
            m.loser_player_name = r.winner_player_name))) ∧
    out.loser_wins_ytd + out.loser_losses_ytd =
      ((sequencer l).take i).countP (fun m =>
        decide (m.tournament_year = r.tournament_year ∧
          (m.winner_player_name = r.loser_player_name ∨
            m.loser_player_name = r.loser_player_name))) := by
  obtain ⟨out2, hget, e1, e2, e3, e4⟩ :=
    yearly_go_get (sequencer l) (fun _ _ => 0) (fun _ _ => 0) i r hr
  rw [compute_yearly_stats] at hout
  rw [hout] at hget
  obtain rfl : out = out2 := by injection hget
  have hdisj : ∀ p : String, ∀ m ∈ (sequencer l).take i,
      ¬((decide (p = m.winner_player_name ∧
          r.tournament_year = m.tournament_year) = true) ∧
        (decide (p = m.loser_player_name ∧
          r.tournament_year = m.tournament_year) = true)) := by
    intro p m hm
    simp only [decide_eq_true_eq]
    rintro ⟨⟨hw, -⟩, ⟨hl2, -⟩⟩
    exact hwl m (List.mem_of_mem_take hm) (hw ▸ hl2 ▸ rfl)
  constructor
  · rw [e1, e2, Nat.zero_add, Nat.zero_add,
      countP_add_of_disjoint _ _ _ (hdisj r.winner_player_name)]
    refine List.countP_congr fun m hm => ?_
    simp only [Bool.or_eq_true, decide_eq_true_eq]
    constructor
    · rintro (⟨h1, h2⟩ | ⟨h1, h2⟩) <;> exact ⟨h2.symm, by simp [h1.symm]⟩
    · rintro ⟨h1, h2 | h2⟩
      · exact Or.inl ⟨h2.symm, h1.symm⟩
      · exact Or.inr ⟨h2.symm, h1.symm⟩
  · rw [e3, e4, Nat.zero_add, Nat.zero_add,
      countP_add_of_disjoint _ _ _ (hdisj r.loser_player_name)]
    refine List.countP_congr fun m hm => ?_
    simp only [Bool.or_eq_true, decide_eq_true_eq]
    constructor
    · rintro (⟨h1, h2⟩ | ⟨h1, h2⟩) <;> exact ⟨h2.symm, by simp [h1.symm]⟩
    · rintro ⟨h1, h2 | h2⟩
      · exact Or.inl ⟨h2.symm, h1.symm⟩
      · exact Or.inr ⟨h2.symm, h1.symm⟩

theorem pairKey_eq_iff (x y a b : String) :
    pairKey x y = pairKey a b ↔ (x = a ∧ y = b) ∨ (x = b ∧ y = a) := by
  unfold pairKey
  split_ifs with h1 h2 h2 <;> simp only [Prod.mk.injEq]
  · constructor
    · exact fun hc => Or.inl hc
    · rintro (⟨rfl, rfl⟩ | ⟨rfl, rfl⟩)
      · exact ⟨rfl, rfl⟩
      · exact (lt_asymm h1 h2).elim
  · constructor
    · exact fun hc => Or.inr ⟨hc.1, hc.2⟩
    · rintro (⟨rfl, rfl⟩ | ⟨rfl, rfl⟩)
      · exact (h2 h1).elim
      · exact ⟨rfl, rfl⟩
  · constructor
    · exact fun hc => Or.inr ⟨hc.2, hc.1⟩
    · rintro (⟨rfl, rfl⟩ | ⟨rfl, rfl⟩)
      · exact (h1 h2).elim
      · exact ⟨rfl, rfl⟩
  · constructor
    · exact fun hc => Or.inl ⟨hc.2, hc.1⟩
    · rintro (⟨rfl, rfl⟩ | ⟨rfl, rfl⟩)
      · exact ⟨rfl, rfl⟩
      · have hxy : x = y := le_antisymm (not_lt.mp h2) (not_lt.mp h1)
        exact ⟨hxy.symm, hxy⟩

theorem h2hUpdate_sum (st : String × String → Nat × Nat) (r : MatchRecord)
    (k : String × String) :
    (h2hUpdate st r k).1 + (h2hUpdate st r k).2 =
      (st k).1 + (st k).2 +
        (if k = pairKey r.winner_player_name r.loser_player_name then 1
          else 0) := by
  unfold h2hUpdate
  by_cases hk : k = pairKey r.winner_player_name r.loser_player_name
  · by_cases hw : r.winner_player_name < r.loser_player_name <;>
      simp [hk, hw] <;> omega
  · simp [hk]

theorem h2hSnap_spec (st : String × String → Nat × Nat) (r : MatchRecord) :
    (h2hSnap st r).winner_h2h_wins + (h2hSnap st r).winner_h2h_losses =
        (st (pairKey r.winner_player_name r.loser_player_name)).1 +
          (st (pairKey r.winner_player_name r.loser_player_name)).2 ∧
      (h2hSnap st r).winner_h2h_losses = (h2hSnap st r).loser_h2h_wins := by
  unfold h2hSnap
  by_cases hw : r.winner_player_name < r.loser_player_name <;>
    simp [hw] <;> omega

theorem h2h_go_get (rs : List MatchRecord) :
    ∀ (st : String × String → Nat × Nat) (i : Nat) (r : MatchRecord),
      rs[i]? = some r →
      ∃ out, (compute_h2h_go st rs)[i]? = some out ∧
        out.winner_h2h_wins + out.winner_h2h_losses =
          (st (pairKey r.winner_player_name r.loser_player_name)).1 +
            (st (pairKey r.winner_player_name r.loser_player_name)).2 +
            (rs.take i).countP (fun m =>
              decide (pairKey r.winner_player_name r.loser_player_name =
                pairKey m.winner_player_name m.loser_player_name)) ∧
        out.winner_h2h_losses = out.loser_h2h_wins := by
  induction rs with
  | nil => intro st i r hr; simp at hr
  | cons r0 rs ih =>
    intro st i r hr
    cases i with
    | zero =>
      rw [List.getElem?_cons_zero] at hr
      obtain rfl : r0 = r := by injection hr
      exact ⟨h2hSnap st r0, by simp [compute_h2h_go],
        by simpa using (h2hSnap_spec st r0).1, (h2hSnap_spec st r0).2⟩
    | succ i =>
      rw [List.getElem?_cons_succ] at hr
      obtain ⟨out, hget, e1, e2⟩ := ih (h2hUpdate st r0) i r hr
      refine ⟨out, by simpa [compute_h2h_go] using hget, ?_, e2⟩
      rw [e1, h2hUpdate_sum, List.take_succ_cons, List.countP_cons]
      by_cases hk : pairKey r.winner_player_name r.loser_player_name =
          pairKey r0.winner_player_name r0.loser_player_name <;>
        simp [hk] <;> omega

/-- C3.  H2H snapshot symmetry: at every record `R` of the sorted pass, the
emitted `winner_h2h_wins + winner_h2h_losses` equal the number of matches
between the same two players strictly earlier in the sort order, and
`winner_h2h_losses` equals `loser_h2h_wins`. -/
theorem h2h_snapshot_symmetry (l : List MatchRecord) (i : Nat)
    (r : MatchRecord) (out : H2HOut) (hr : (sequencer l)[i]? = some r)
    (hout : (compute_h2h_stats l)[i]? = some out) :
    out.winner_h2h_wins + out.winner_h2h_losses =
      ((sequencer l).take i).countP (fun m =>
        decide ((m.winner_player_name = r.winner_player_name ∧
            m.loser_player_name = r.loser_player_name) ∨
          (m.winner_player_name = r.loser_player_name ∧
            m.loser_player_name = r.winner_player_name))) ∧
    out.winner_h2h_losses = out.loser_h2h_wins := by
  obtain ⟨out2, hget, e1, e2⟩ :=
    h2h_go_get (sequencer l) (fun _ => (0, 0)) i r hr
  rw [compute_h2h_stats] at hout
  rw [hout] at hget
  obtain rfl : out = out2 := by injection hget
  refine ⟨?_, e2⟩
  rw [e1]
  simp only [Nat.zero_add]
  refine List.countP_congr fun m hm => ?_
  simp only [decide_eq_true_eq]
  rw [pairKey_eq_iff]
  constructor
  · rintro (⟨h1, h2⟩ | ⟨h1, h2⟩)
    · exact Or.inl ⟨h1.symm, h2.symm⟩
    · exact Or.inr ⟨h2.symm, h1.symm⟩
  · rintro (⟨h1, h2⟩ | ⟨h1, h2⟩)
    · exact Or.inl ⟨h1.symm, h2.symm⟩
    · exact Or.inr ⟨h2.symm, h1.symm⟩

theorem round2_zero : round2 0 = 0 := by simp [round2]

theorem pct100_zero_den (n : Nat) : pct100 n 0 = 0 := by simp [pct100]

theorem rateOf_zero_den (n : Nat) : rateOf n 0 = 0 := by simp [rateOf]

theorem yearly_go_pct (rs : List MatchRecord) :
    ∀ (W L : String → Int → Nat) (out : YearlyOut),
      out ∈ compute_yearly_go W L rs →
      out.winner_win_pct_ytd =
          round2 (pct100 out.winner_wins_ytd
            (out.winner_wins_ytd + out.winner_losses_ytd)) ∧
        out.loser_win_pct_ytd =
          round2 (pct100 out.loser_wins_ytd
            (out.loser_wins_ytd + out.loser_losses_ytd)) := by
  induction rs with
  | nil => intro W L out h; simp [compute_yearly_go] at h
  | cons r rs ih =>
    intro W L out h
    rw [compute_yearly_go] at h
    rcases List.mem_cons.mp h with rfl | h2
    · exact ⟨rfl, rfl⟩
    · exact ih _ _ _ h2

theorem bptb_go_pct (rs : List MatchRecord) :
    ∀ (st : BpTbState) (out : BpTbOut), out ∈ compute_bptb_go st rs →
      out.winner_bp_pct_ytd =
          round2 (pct100 out.winner_bp_won_ytd out.winner_bp_faced_ytd) ∧
        out.loser_bp_pct_ytd =
          round2 (pct100 out.loser_bp_won_ytd out.loser_bp_faced_ytd) ∧
        out.winner_bp_pct_career =
          round2 (pct100 out.winner_bp_won_career
            out.winner_bp_faced_career) ∧
        out.loser_bp_pct_career =
          round2 (pct100 out.loser_bp_won_career out.loser_bp_faced_career) ∧
        out.winner_tb_pct_ytd =
          round2 (pct100 out.winner_tb_won_ytd out.winner_tb_played_ytd) ∧
        out.loser_tb_pct_ytd =
          round2 (pct100 out.loser_tb_won_ytd out.loser_tb_played_ytd) ∧
        out.winner_tb_pct_career =
          round2 (pct100 out.winner_tb_won_career
            out.winner_tb_played_career) ∧
        out.loser_tb_pct_career =
          round2 (pct100 out.loser_tb_won_career
            out.loser_tb_played_career) := by
  induction rs with
  | nil => intro st out h; simp [compute_bptb_go] at h
  | cons r rs ih =>
    intro st out h
    rw [compute_bptb_go] at h
    rcases List.mem_cons.mp h with rfl | h2
    · exact ⟨rfl, rfl, rfl, rfl, rfl, rfl, rfl, rfl⟩
    · exact ih _ _ h2

theorem surface_go_pct (rs : List MatchRecord) :
    ∀ (st : String → String → Nat × Nat) (out : SurfaceOut),
      out ∈ compute_surface_go st rs →
      out.winner_clay_win_pct =
          round2 (pct100 out.winner_clay_wins
            (out.winner_clay_wins + out.winner_clay_losses)) ∧
        out.winner_grass_win_pct =
          round2 (pct100 out.winner_grass_wins
            (out.winner_grass_wins + out.winner_grass_losses)) ∧
        out.winner_hard_win_pct =
          round2 (pct100 out.winner_hard_wins
            (out.winner_hard_wins + out.winner_hard_losses)) ∧
        out.loser_clay_win_pct =
          round2 (pct100 out.loser_clay_wins
            (out.loser_clay_wins + out.loser_clay_losses)) ∧
        out.loser_grass_win_pct =
          round2 (pct100 out.loser_grass_wins
            (out.loser_grass_wins + out.loser_grass_losses)) ∧
        out.loser_hard_win_pct =
          round2 (pct100 out.loser_hard_wins
            (out.loser_hard_wins + out.loser_hard_losses)) := by
  induction rs with
  | nil => intro st out h; simp [compute_surface_go] at h
  | cons r rs ih =>
    intro st out h
    rw [compute_surface_go] at h
    rcases List.mem_cons.mp h with rfl | h2
    · exact ⟨rfl, rfl, rfl, rfl, rfl, rfl⟩
    · exact ih _ _ h2

theorem serve_go_get (rs : List MatchRecord) :
    ∀ (st : String → ServeCell) (i : Nat) (r : MatchRecord),
      rs[i]? = some r →
      (compute_serve_go st rs)[i]? =
        some (serveSnap (List.foldl serveUpdate st (rs.take i)) r) := by
  induction rs with
  | nil => intro st i r hr; simp at hr
  | cons r0 rs ih =>
    intro st i r hr
    cases i with
    | zero =>
      rw [List.getElem?_cons_zero] at hr
      obtain rfl : r0 = r := by injection hr
      simp [compute_serve_go]
    | succ i =>
      rw [List.getElem?_cons_succ] at hr
      rw [List.take_succ_cons, List.foldl_cons]
      simpa [compute_serve_go] using ih (serveUpdate st r0) i r hr

/-- C5.  Zero-denominator policy: whenever the pre-match denominator
snapshot of an emitted percentage or rate feature is zero — YTD win
percentage, YTD/career breakpoint and tiebreak percentages, surface win
percentages, career first-serve percentage, ace and double-fault rates —
the emitted value is exactly 0. -/
theorem zero_denominator_policy (l : List MatchRecord) :
    (∀ out ∈ compute_yearly_stats l,
        (out.winner_wins_ytd + out.winner_losses_ytd = 0 →
          out.winner_win_pct_ytd = 0) ∧
        (out.loser_wins_ytd + out.loser_losses_ytd = 0 →
          out.loser_win_pct_ytd = 0)) ∧
    (∀ out ∈ compute_breakpoint_and_tiebreak_stats l,
        (out.winner_bp_faced_ytd = 0 → out.winner_bp_pct_ytd = 0) ∧
        (out.loser_bp_faced_ytd = 0 → out.loser_bp_pct_ytd = 0) ∧
        (out.winner_bp_faced_career = 0 → out.winner_bp_pct_career = 0) ∧
        (out.loser_bp_faced_career = 0 → out.loser_bp_pct_career = 0) ∧
        (out.winner_tb_played_ytd = 0 → out.winner_tb_pct_ytd = 0) ∧
        (out.loser_tb_played_ytd = 0 → out.loser_tb_pct_ytd = 0) ∧
        (out.winner_tb_played_career = 0 → out.winner_tb_pct_career = 0) ∧
        (out.loser_tb_played_career = 0 → out.loser_tb_pct_career = 0)) ∧
    (∀ out ∈ compute_surface_specific_stats l,
        (out.winner_clay_wins + out.winner_clay_losses = 0 →
          out.winner_clay_win_pct = 0) ∧
        (out.winner_grass_wins + out.winner_grass_losses = 0 →
          out.winner_grass_win_pct = 0) ∧
        (out.winner_hard_wins + out.winner_hard_losses = 0 →
          out.winner_hard_win_pct = 0) ∧
        (out.loser_clay_wins + out.loser_clay_losses = 0 →
          out.loser_clay_win_pct = 0) ∧
        (out.loser_grass_wins + out.loser_grass_losses = 0 →
          out.loser_grass_win_pct = 0) ∧
        (out.loser_hard_wins + out.loser_hard_losses = 0 →
          out.loser_hard_win_pct = 0)) ∧
    (∀ (i : Nat) (r : MatchRecord) (out : ServeOut),
        (sequencer l)[i]? = some r →
        (compute_serve_stats l)[i]? = some out →
        ((List.foldl serveUpdate serveInit
              ((sequencer l).take i) r.winner_player_name).serve_pts = 0 →
          out.winner_first_serve_pct_career = 0) ∧
        ((List.foldl serveUpdate serveInit
              ((sequencer l).take i) r.winner_player_name).service_games =
            0 →
          out.winner_aces_per_service_game = 0 ∧
            out.winner_df_per_service_game = 0) ∧
        ((List.foldl serveUpdate serveInit
              ((sequencer l).take i) r.loser_player_name).serve_pts = 0 →
          out.loser_first_serve_pct_career = 0) ∧
        ((List.foldl serveUpdate serveInit
              ((sequencer l).take i) r.loser_player_name).service_games =
            0 →
          out.loser_aces_per_service_game = 0 ∧
            out.loser_df_per_service_game = 0)) := by
  refine ⟨?_, ?_, ?_, ?_⟩
  · intro out hmem
    obtain ⟨e1, e2⟩ := yearly_go_pct (sequencer l) _ _ out hmem
    constructor
    · intro h0; rw [e1, h0, pct100_zero_den, round2_zero]
    · intro h0; rw [e2, h0, pct100_zero_den, round2_zero]
  · intro out hmem
    obtain ⟨e1, e2, e3, e4, e5, e6, e7, e8⟩ :=
      bptb_go_pct (sequencer l) _ out hmem
    exact ⟨fun h0 => by rw [e1, h0, pct100_zero_den, round2_zero],
      fun h0 => by rw [e2, h0, pct100_zero_den, round2_zero],
      fun h0 => by rw [e3, h0, pct100_zero_den, round2_zero],
      fun h0 => by rw [e4, h0, pct100_zero_den, round2_zero],
      fun h0 => by rw [e5, h0, pct100_zero_den, round2_zero],
      fun h0 => by rw [e6, h0, pct100_zero_den, round2_zero],
      fun h0 => by rw [e7, h0, pct100_zero_den, round2_zero],
      fun h0 => by rw [e8, h0, pct100_zero_den, round2_zero]⟩
  · intro out hmem
    obtain ⟨e1, e2, e3, e4, e5, e6⟩ :=
      surface_go_pct (sequencer l) _ out hmem
    exact ⟨fun h0 => by rw [e1, h0, pct100_zero_den, round2_zero],
      fun h0 => by rw [e2, h0, pct100_zero_den, round2_zero],
      fun h0 => by rw [e3, h0, pct100_zero_den, round2_zero],
      fun h0 => by rw [e4, h0, pct100_zero_den, round2_zero],
      fun h0 => by rw [e5, h0, pct100_zero_den, round2_zero],
      fun h0 => by rw [e6, h0, pct100_zero_den, round2_zero]⟩
  · intro i r out hr hout
    rw [compute_serve_stats, serve_go_get (sequencer l) serveInit i r hr]
      at hout
    obtain rfl : out = serveSnap
        (List.foldl serveUpdate serveInit ((sequencer l).take i)) r := by
      injection hout with h
      exact h.symm
    refine ⟨?_, ?_, ?_, ?_⟩
    · intro h0
      show round2 (pct100 _ _) = 0
      rw [h0, pct100_zero_den, round2_zero]
    · intro h0
      constructor <;>
        · show round2 (rateOf _ _) = 0
          rw [h0, rateOf_zero_den, round2_zero]
    · intro h0
      show round2 (pct100 _ _) = 0
      rw [h0, pct100_zero_den, round2_zero]
    · intro h0
      constructor <;>
        · show round2 (rateOf _ _) = 0
          rw [h0, rateOf_zero_den, round2_zero]

theorem sum_le_length_of_le_one (l : List Nat) (h : ∀ x ∈ l, x ≤ 1) :
    l.sum ≤ l.length := by
  induction l with
  | nil => simp
  | cons a l ih =>
    have ha := h a (List.mem_cons_self a l)
    have ihl := ih fun x hx => h x (List.mem_cons_of_mem a hx)
    simp only [List.sum_cons, List.length_cons]
    omega

theorem sum_drop_le_sum (n : Nat) (l : List Nat) : (l.drop n).sum ≤ l.sum := by
  induction l generalizing n with
  | nil => simp
  | cons a l ih =>
    cases n with
    | zero => simp
    | succ n =>
      simp only [List.drop_succ_cons, List.sum_cons]
      exact le_trans (ih n) (Nat.le_add_left _ _)

theorem lastN_sum_le (n : Nat) (l : List Nat) (h : ∀ x ∈ l, x ≤ 1) :
    (lastN n l).sum ≤ n := by
  refine le_trans (sum_le_length_of_le_one _
    (fun x hx => h x (List.mem_of_mem_drop hx))) ?_
  simp only [lastN, List.length_drop]
  omega

theorem lastN_five_le_ten (l : List Nat) :
    (lastN 5 l).sum ≤ (lastN 10 l).sum := by
  have hd : lastN 5 l =
      (lastN 10 l).drop ((l.length - 5) - (l.length - 10)) := by
    unfold lastN
    rw [List.drop_drop]
    congr 1
    omega
  rw [hd]
  exact sum_drop_le_sum _ _

theorem formUpdate_inv (st : String → List Nat) (r : MatchRecord)
    (h : ∀ p, ∀ x ∈ st p, x ≤ 1) :
    ∀ p, ∀ x ∈ formUpdate st r p, x ≤ 1 := by
  have happ : ∀ (l : List Nat) (k : Nat), k ≤ 1 → (∀ x ∈ l, x ≤ 1) →
      ∀ x ∈ l ++ [k], x ≤ 1 := by
    intro l k hk hl x hx
    rcases List.mem_append.mp hx with hx | hx
    · exact hl x hx
    · simp only [List.mem_singleton] at hx
      omega
  intro p x hx
  simp only [formUpdate] at hx
  split at hx
  · split at hx
    · exact happ _ 0 (by omega) (happ _ 1 (by omega) (h p)) x hx
    · exact happ _ 0 (by omega) (h p) x hx
  · split at hx
    · exact happ _ 1 (by omega) (h p) x hx
    · exact h p x hx

theorem form_go_bounds (rs : List MatchRecord) :
    ∀ (st : String → List Nat), (∀ p, ∀ x ∈ st p, x ≤ 1) →
      ∀ out ∈ compute_form_go st rs,
        (out.winner_last5_wins ≤ 5 ∧ out.winner_last10_wins ≤ 10 ∧
          out.winner_last5_wins ≤ out.winner_last10_wins) ∧
        (out.loser_last5_wins ≤ 5 ∧ out.loser_last10_wins ≤ 10 ∧
          out.loser_last5_wins ≤ out.loser_last10_wins) := by
  induction rs with
  | nil => intro st hst out h; simp [compute_form_go] at h
  | cons r rs ih =>
    intro st hst out h
    rw [compute_form_go] at h
    rcases List.mem_cons.mp h with rfl | h2
    · exact ⟨⟨lastN_sum_le 5 _ (hst _), lastN_sum_le 10 _ (hst _),
        lastN_five_le_ten _⟩,
        ⟨lastN_sum_le 5 _ (hst _), lastN_sum_le 10 _ (hst _),
          lastN_five_le_ten _⟩⟩
    · exact ih _ (formUpdate_inv st r hst) out h2

/-- C7.  Recent-form bounds: for every emitted record the recent-form
counts satisfy `0 ≤ last5 ≤ 5`, `0 ≤ last10 ≤ 10` and `last5 ≤ last10`,
for the winner's and the loser's columns alike (the counts are naturals,
so the lower bounds are part of the type). -/
theorem recent_form_bounds (l : List MatchRecord) (out : FormOut)
    (h : out ∈ compute_recent_form l) :
    (out.winner_last5_wins ≤ 5 ∧ out.winner_last10_wins ≤ 10 ∧
        out.winner_last5_wins ≤ out.winner_last10_wins) ∧
      (out.loser_last5_wins ≤ 5 ∧ out.loser_last10_wins ≤ 10 ∧
        out.loser_last5_wins ≤ out.loser_last10_wins) :=
  form_go_bounds (sequencer l) _ (fun p x hx => by simp at hx) out h

theorem monthTable_step : ∀ (L : Bool), ∀ m1, m1 < 13 → ∀ m2, m2 < 13 →
    1 ≤ m1 → m1 < m2 →
    monthCumDays m1 + (if L && decide (2 < m1) then 1 else 0) +
        monthLength L m1 ≤
      monthCumDays m2 + (if L && decide (2 < m2) then 1 else 0) := by decide

theorem monthLength_le_31 : ∀ (L : Bool), ∀ m, m < 13 →
    monthLength L m ≤ 31 := by decide

theorem monthCumDays_le : ∀ m, m < 13 → monthCumDays m ≤ 334 := by decide

theorem leapCount_mono {n m : Nat} (h : n ≤ m) : leapCount n ≤ leapCount m := by
  unfold leapCount
  omega

theorem dateOrdinal_mono {n1 n2 : Nat} (h1 : ValidDate n1) (h2 : ValidDate n2)
    (h : n1 ≤ n2) : dateOrdinal n1 ≤ dateOrdinal n2 := by
  obtain ⟨hy1, hm1lo, hm1hi, hd1lo, hd1hi⟩ := h1
  obtain ⟨hy2, hm2lo, hm2hi, hd2lo, hd2hi⟩ := h2
  have hml1 := monthLength_le_31 (leapYear (dateYear n1)) (dateMonth n1)
    (by omega)
  have hy : dateYear n1 ≤ dateYear n2 := by
    unfold dateYear
    omega
  rcases Nat.lt_or_ge (dateYear n1) (dateYear n2) with hlt | hge
  · have hcum1 := monthCumDays_le (dateMonth n1) (by omega)
    have hlc1 : leapCount (dateYear n1 - 1) ≤ leapCount (dateYear n2 - 1) :=
      leapCount_mono (by omega)
    have ha1 : (if leapYear (dateYear n1) && decide (2 < dateMonth n1)
        then 1 else 0) ≤ 1 := by split <;> omega
    unfold dateOrdinal
    omega
  · have heq : dateYear n1 = dateYear n2 := le_antisymm hy hge
    have hmd : dateMonth n1 * 100 + dateDay n1 ≤
        dateMonth n2 * 100 + dateDay n2 := by
      unfold dateYear at heq
      unfold dateMonth dateDay
      omega
    rcases Nat.lt_trichotomy (dateMonth n1) (dateMonth n2) with
      hmlt | hmeq | hmgt
    · have hstep := monthTable_step (leapYear (dateYear n1)) (dateMonth n1)
        (by omega) (dateMonth n2) (by omega) (by omega) hmlt
      unfold dateOrdinal
      rw [← heq]
      omega
    · have hdle : dateDay n1 ≤ dateDay n2 := by omega
      unfold dateOrdinal
      rw [← heq, ← hmeq]
      omega
    · exfalso
      have hd2lt : dateDay n2 < 100 := by unfold dateDay; omega
      omega

theorem stAfterLast_cons (st : String → Option Int) (r0 : MatchRecord)
    (pref : List MatchRecord) (p : String) :
    stAfterLast st (r0 :: pref) p =
      stAfterLast (fatigueUpdateLast st r0) pref p := by
  unfold stAfterLast
  by_cases hinv : p = r0.winner_player_name ∨ p = r0.loser_player_name
  · rw [List.filter_cons_of_pos (by simpa using hinv)]
    have hupd : fatigueUpdateLast st r0 p =
        some (dateOrdinal r0.tournament_date : Int) := by
      unfold fatigueUpdateLast
      rcases hinv with h1 | h2
      · by_cases h2 : p = r0.loser_player_name <;> simp [h1, h2]
      · simp [h2]
    cases hfl : (pref.filter (fun m => decide (p = m.winner_player_name ∨
        p = m.loser_player_name))).getLast? with
    | none =>
      have hnil := List.getLast?_eq_none_iff.mp hfl
      rw [hnil, hupd]
      rfl
    | some m =>
      obtain ⟨ys, hys⟩ := List.getLast?_eq_some_iff.mp hfl
      rw [hys]
      have hlast : (r0 :: (ys ++ [m])).getLast? = some m := by
        rw [show r0 :: (ys ++ [m]) = (r0 :: ys) ++ [m] by simp,
          List.getLast?_concat]
      rw [hlast]
  · rw [List.filter_cons_of_neg (by simpa using hinv)]
    have hupd : fatigueUpdateLast st r0 p = st p := by
      push_neg at hinv
      unfold fatigueUpdateLast
      simp [hinv.1, hinv.2]
    rw [hupd]

theorem foldl_fatigueUpdateLast (pref : List MatchRecord) :
    ∀ (lm : String → Option Int) (p : String),
      List.foldl fatigueUpdateLast lm pref p = stAfterLast lm pref p := by
  induction pref with
  | nil => intro lm p; rfl
  | cons r0 pref ih =>
    intro lm p
    rw [List.foldl_cons, ih, ← stAfterLast_cons]

theorem fatigue_go_get (rs : List MatchRecord) :
    ∀ (lm : String → Option Int) (tm : String → Nat) (i : Nat)
      (r : MatchRecord), rs[i]? = some r →
      (compute_fatigue_go lm tm rs)[i]? =
        some (fatigueSnap (List.foldl fatigueUpdateLast lm (rs.take i))
          (List.foldl fatigueUpdateTot tm (rs.take i)) r) := by
  induction rs with
  | nil => intro lm tm i r hr; simp at hr
  | cons r0 rs ih =>
    intro lm tm i r hr
    cases i with
    | zero =>
      rw [List.getElem?_cons_zero] at hr
      obtain rfl : r0 = r := by injection hr
      simp [compute_fatigue_go]
    | succ i =>
      rw [List.getElem?_cons_succ] at hr
      rw [List.take_succ_cons, List.foldl_cons, List.foldl_cons]
      simpa [compute_fatigue_go] using
        ih (fatigueUpdateLast lm r0) (fatigueUpdateTot tm r0) i r hr

theorem sequencer_sorted (l : List MatchRecord) :
    List.Pairwise (fun a b => recordLE a b = true) (sequencer l) :=
  List.sorted_mergeSort recordLE_trans recordLE_total l

theorem prefix_date_le (l : List MatchRecord) (i : Nat) (r : MatchRecord)
    (hr : (sequencer l)[i]? = some r) (m : MatchRecord)
    (hm : m ∈ (sequencer l).take i) :
    m.tournament_date ≤ r.tournament_date := by
  obtain ⟨j, hj⟩ := List.mem_iff_getElem?.mp hm
  have hjlen : j < ((sequencer l).take i).length := by
    by_contra hge
    rw [List.getElem?_eq_none (Nat.le_of_not_lt hge)] at hj
    exact Option.noConfusion hj
  have hji : j < i := lt_of_lt_of_le hjlen (by simp)
  rw [List.getElem?_take_of_lt hji] at hj
  obtain ⟨hi, hri⟩ := List.getElem?_eq_some_iff.mp hr
  obtain ⟨hjl, hmj⟩ := List.getElem?_eq_some_iff.mp hj
  have hpw := sequencer_sorted l
  rw [List.pairwise_iff_getElem] at hpw
  have hR := hpw j i hjl hi hji
  rw [hmj, hri] at hR
  simp only [recordLE, Bool.or_eq_true, Bool.and_eq_true, decide_eq_true_eq,
    beq_iff_eq] at hR
  omega

/-- C6.  Fatigue sentinel: for each side of each record of the sorted pass,
`days_since_last_match` is exactly the image of the last earlier record
involving that player under whole-day date difference — in particular it is
the missing sentinel (`none`, never zero) iff the player appears for the
first time — and any present value is nonnegative, assuming valid input
dates (the sorted-order precondition is supplied by the engine's own
sequencer). -/
theorem fatigue_sentinel (l : List MatchRecord)
    (hvalid : ∀ m ∈ l, ValidDate m.tournament_date)
    (i : Nat) (r : MatchRecord) (out : FatigueOut)
    (hr : (sequencer l)[i]? = some r)
    (hout : (compute_fatigue_and_experience l)[i]? = some out) :
    (out.winner_days_since_last_match =
        (((sequencer l).take i).filter (fun m =>
          decide (r.winner_player_name = m.winner_player_name ∨
            r.winner_player_name = m.loser_player_name))).getLast?.map
          (fun m => (dateOrdinal r.tournament_date : Int) -
            dateOrdinal m.tournament_date)) ∧
      (∀ d, out.winner_days_since_last_match = some d → 0 ≤ d) ∧
      (out.loser_days_since_last_match =
        (((sequencer l).take i).filter (fun m =>
          decide (r.loser_player_name = m.winner_player_name ∨
            r.loser_player_name = m.loser_player_name))).getLast?.map
          (fun m => (dateOrdinal r.tournament_date : Int) -
            dateOrdinal m.tournament_date)) ∧
      (∀ d, out.loser_days_since_last_match = some d → 0 ≤ d) := by
  rw [compute_fatigue_and_experience,
    fatigue_go_get (sequencer l) _ _ i r hr] at hout
  obtain rfl : out = fatigueSnap
      (List.foldl fatigueUpdateLast (fun _ => none) ((sequencer l).take i))
      (List.foldl fatigueUpdateTot (fun _ => 0) ((sequencer l).take i))
      r := by
    injection hout with h
    exact h.symm
  have key : ∀ p : String,
      (List.foldl fatigueUpdateLast (fun _ => none)
          ((sequencer l).take i) p).map
        (fun o => (dateOrdinal r.tournament_date : Int) - o) =
      (((sequencer l).take i).filter (fun m =>
          decide (p = m.winner_player_name ∨
            p = m.loser_player_name))).getLast?.map
        (fun m => (dateOrdinal r.tournament_date : Int) -
          dateOrdinal m.tournament_date) := by
    intro p
    rw [foldl_fatigueUpdateLast]
    unfold stAfterLast
    cases hg : (((sequencer l).take i).filter (fun m =>
        decide (p = m.winner_player_name ∨
          p = m.loser_player_name))).getLast? with
    | none => rfl
    | some m => rfl
  have hnonneg : ∀ (p : String) (d : Int),
      ((((sequencer l).take i).filter (fun m =>
          decide (p = m.winner_player_name ∨
            p = m.loser_player_name))).getLast?.map
        (fun m => (dateOrdinal r.tournament_date : Int) -
          dateOrdinal m.tournament_date)) = some d → 0 ≤ d := by
    intro p d hd
    rw [Option.map_eq_some'] at hd
    obtain ⟨m, hg, hdm⟩ := hd
    have hmem := List.mem_of_getLast?_eq_some hg
    have hmtake : m ∈ (sequencer l).take i := List.mem_of_mem_filter hmem
    have hdate := prefix_date_le l i r hr m hmtake
    have hvm : ValidDate m.tournament_date := hvalid m (by
      have hms : m ∈ sequencer l := List.mem_of_mem_take hmtake
      rwa [sequencer, List.mem_mergeSort] at hms)
    have hvr : ValidDate r.tournament_date := hvalid r (by
      have hrs : r ∈ sequencer l := List.mem_iff_getElem?.mpr ⟨i, hr⟩
      rwa [sequencer, List.mem_mergeSort] at hrs)
    have hmono := dateOrdinal_mono hvm hvr hdate
    omega
  have e1 := key r.winner_player_name
  have e3 := key r.loser_player_name
  refine ⟨e1, ?_, e3, ?_⟩
  · intro d hd
    rw [show (fatigueSnap
        (List.foldl fatigueUpdateLast (fun _ => none)
          ((sequencer l).take i))
        (List.foldl fatigueUpdateTot (fun _ => 0) ((sequencer l).take i))
        r).winner_days_since_last_match =
      (List.foldl fatigueUpdateLast (fun _ => none)
          ((sequencer l).take i) r.winner_player_name).map
        (fun o => (dateOrdinal r.tournament_date : Int) - o) from rfl,
      e1] at hd
    exact hnonneg r.winner_player_name d hd
  · intro d hd
    rw [show (fatigueSnap
        (List.foldl fatigueUpdateLast (fun _ => none)
          ((sequencer l).take i))
        (List.foldl fatigueUpdateTot (fun _ => 0) ((sequencer l).take i))
        r).loser_days_since_last_match =
      (List.foldl fatigueUpdateLast (fun _ => none)
          ((sequencer l).take i) r.loser_player_name).map
        (fun o => (dateOrdinal r.tournament_date : Int) - o) from rfl,
      e3] at hd
    exact hnonneg r.loser_player_name d hd

/-- C9.  Per-match tiebreak symmetry: both calls of
`count_tiebreaks_in_score` report the same `tiebreaks_played`, and the
winner's and loser's `tiebreaks_won` add up to it. -/
theorem tiebreak_symmetry (score : Option String) :
    (count_tiebreaks_in_score score true).2 =
        (count_tiebreaks_in_score score false).2 ∧
      (count_tiebreaks_in_score score true).1 +
          (count_tiebreaks_in_score score false).1 =
        (count_tiebreaks_in_score score true).2 := by
  cases score with
  | none => exact ⟨rfl, rfl⟩
  | some s =>
    by_cases h : s.data = [] <;>
      simp [count_tiebreaks_in_score, h, tbCountsList_played_eq,
        tbCountsList_won_add]

theorem sequencer_singleton (r : MatchRecord) : sequencer [r] = [r] := by
  simp [sequencer]

/-- C8.  Determinism and idempotence: equal input collections produce equal
output tables for every engine function (the pass is a pure function of its
input); the sequencer is idempotent and emits the total order by
(date, match number), so running any engine on its own sorted input changes
nothing; and sorting is stable — any chain already in key order embedded in
the input stays embedded in the sorted output, so key ties keep their
original read order. -/
theorem determinism_idempotence :
    (∀ l1 l2 : List MatchRecord, l1 = l2 →
        compute_yearly_stats l1 = compute_yearly_stats l2 ∧
        compute_h2h_stats l1 = compute_h2h_stats l2 ∧
        compute_breakpoint_and_tiebreak_stats l1 =
          compute_breakpoint_and_tiebreak_stats l2 ∧
        compute_surface_specific_stats l1 =
          compute_surface_specific_stats l2 ∧
        compute_recent_form l1 = compute_recent_form l2 ∧
        compute_fatigue_and_experience l1 =
          compute_fatigue_and_experience l2 ∧
        compute_serve_stats l1 = compute_serve_stats l2) ∧
    (∀ l : List MatchRecord,
        sequencer (sequencer l) = sequencer l ∧
        List.Pairwise (fun a b => recordLE a b = true) (sequencer l) ∧
        compute_yearly_stats (sequencer l) = compute_yearly_stats l ∧
        compute_h2h_stats (sequencer l) = compute_h2h_stats l ∧
        compute_breakpoint_and_tiebreak_stats (sequencer l) =
          compute_breakpoint_and_tiebreak_stats l ∧
        compute_surface_specific_stats (sequencer l) =
          compute_surface_specific_stats l ∧
        compute_recent_form (sequencer l) = compute_recent_form l ∧
        compute_fatigue_and_experience (sequencer l) =
          compute_fatigue_and_experience l ∧
        compute_serve_stats (sequencer l) = compute_serve_stats l) ∧
    (∀ l c : List MatchRecord,
        List.Pairwise (fun a b => recordLE a b = true) c →
        c.Sublist l → c.Sublist (sequencer l)) := by
  refine ⟨fun l1 l2 h => by subst h; exact ⟨rfl, rfl, rfl, rfl, rfl, rfl, rfl⟩,
    fun l => ?_,
    fun l c hc hs => List.sublist_mergeSort recordLE_trans recordLE_total
      hc hs⟩
  have hidem : sequencer (sequencer l) = sequencer l :=
    List.mergeSort_of_sorted (sequencer_sorted l)
  refine ⟨hidem, sequencer_sorted l, ?_, ?_, ?_, ?_, ?_, ?_, ?_⟩
  · rw [compute_yearly_stats, compute_yearly_stats, hidem]
  · rw [compute_h2h_stats, compute_h2h_stats, hidem]
  · rw [compute_breakpoint_and_tiebreak_stats,
      compute_breakpoint_and_tiebreak_stats, hidem]
  · rw [compute_surface_specific_stats, compute_surface_specific_stats,
      hidem]
  · rw [compute_recent_form, compute_recent_form, hidem]
  · rw [compute_fatigue_and_experience, compute_fatigue_and_experience,
      hidem]
  · rw [compute_serve_stats, compute_serve_stats, hidem]

/-- C2 witness at a concrete one-row input. -/
theorem ytd_no_lookahead_witness :
    (⟨0, 0, 0, 0, 0, 0⟩ : YearlyOut).winner_wins_ytd +
        (⟨0, 0, 0, 0, 0, 0⟩ : YearlyOut).winner_losses_ytd =
      ((sequencer [sampleRecordA]).take 0).countP (fun m =>
        decide (m.tournament_year = sampleRecordA.tournament_year ∧
          (m.winner_player_name = sampleRecordA.winner_player_name ∨
            m.loser_player_name = sampleRecordA.winner_player_name))) ∧
    (⟨0, 0, 0, 0, 0, 0⟩ : YearlyOut).loser_wins_ytd +
        (⟨0, 0, 0, 0, 0, 0⟩ : YearlyOut).loser_losses_ytd =
      ((sequencer [sampleRecordA]).take 0).countP (fun m =>
        decide (m.tournament_year = sampleRecordA.tournament_year ∧
          (m.winner_player_name = sampleRecordA.loser_player_name ∨
            m.loser_player_name = sampleRecordA.loser_player_name))) :=
  ytd_no_lookahead [sampleRecordA]
    (by rw [sequencer_singleton]; decide) 0 sampleRecordA ⟨0, 0, 0, 0, 0, 0⟩
    (by rw [sequencer_singleton]; rfl)
    (by rw [compute_yearly_stats, sequencer_singleton]
        simp [compute_yearly_go, yearlySnap, pct100, round2])

/-- C3 witness at a concrete one-row input. -/
theorem h2h_snapshot_symmetry_witness :
    (⟨0, 0, 0, 0⟩ : H2HOut).winner_h2h_wins +
        (⟨0, 0, 0, 0⟩ : H2HOut).winner_h2h_losses =
      ((sequencer [sampleRecordA]).take 0).countP (fun m =>
        decide ((m.winner_player_name = sampleRecordA.winner_player_name ∧
            m.loser_player_name = sampleRecordA.loser_player_name) ∨
          (m.winner_player_name = sampleRecordA.loser_player_name ∧
            m.loser_player_name = sampleRecordA.winner_player_name))) ∧
    (⟨0, 0, 0, 0⟩ : H2HOut).winner_h2h_losses =
      (⟨0, 0, 0, 0⟩ : H2HOut).loser_h2h_wins :=
  h2h_snapshot_symmetry [sampleRecordA] 0 sampleRecordA ⟨0, 0, 0, 0⟩
    (by rw [sequencer_singleton]; rfl)
    (by rw [compute_h2h_stats, sequencer_singleton]
        simp only [compute_h2h_go, List.getElem?_cons_zero, Option.some_inj]
        unfold h2hSnap
        split <;> rfl)

/-- C5 witness at a concrete one-row input. -/
theorem zero_denominator_policy_witness :
    (⟨0, 0, 0, 0, 0, 0⟩ : YearlyOut).winner_win_pct_ytd = 0 :=
  ((zero_denominator_policy [sampleRecordA]).1 ⟨0, 0, 0, 0, 0, 0⟩
      (by rw [compute_yearly_stats, sequencer_singleton]
          simp [compute_yearly_go, yearlySnap, pct100, round2])).1 rfl

/-- C6 witness at a concrete one-row input. -/
theorem fatigue_sentinel_witness :
    (⟨none, none, 0, 0⟩ : FatigueOut).winner_days_since_last_match =
      (((sequencer [sampleRecordA]).take 0).filter (fun m =>
        decide (sampleRecordA.winner_player_name = m.winner_player_name ∨
          sampleRecordA.winner_player_name =
            m.loser_player_name))).getLast?.map
        (fun m => (dateOrdinal sampleRecordA.tournament_date : Int) -
          dateOrdinal m.tournament_date) :=
  (fatigue_sentinel [sampleRecordA] (by decide) 0 sampleRecordA
    ⟨none, none, 0, 0⟩ (by rw [sequencer_singleton]; rfl)
    (by rw [compute_fatigue_and_experience, sequencer_singleton]; rfl)).1

/-- C7 witness at a concrete one-row input. -/
theorem recent_form_bounds_witness :
    ((⟨0, 0, 0, 0⟩ : FormOut).winner_last5_wins ≤ 5 ∧
        (⟨0, 0, 0, 0⟩ : FormOut).winner_last10_wins ≤ 10 ∧
        (⟨0, 0, 0, 0⟩ : FormOut).winner_last5_wins ≤
          (⟨0, 0, 0, 0⟩ : FormOut).winner_last10_wins) ∧
      ((⟨0, 0, 0, 0⟩ : FormOut).loser_last5_wins ≤ 5 ∧
        (⟨0, 0, 0, 0⟩ : FormOut).loser_last10_wins ≤ 10 ∧
        (⟨0, 0, 0, 0⟩ : FormOut).loser_last5_wins ≤
          (⟨0, 0, 0, 0⟩ : FormOut).loser_last10_wins) :=
  recent_form_bounds [sampleRecordA] ⟨0, 0, 0, 0⟩
    (by rw [compute_recent_form, sequencer_singleton]; decide)

/-- C8 witness at a concrete one-row input. -/
theorem determinism_idempotence_witness :
    compute_yearly_stats [sampleRecordA] =
        compute_yearly_stats [sampleRecordA] ∧
      [sampleRecordA].Sublist (sequencer [sampleRecordA]) :=
  ⟨(determinism_idempotence.1 [sampleRecordA] [sampleRecordA] rfl).1,
    determinism_idempotence.2.2 [sampleRecordA] [sampleRecordA] (by simp)
      (List.Sublist.refl _)⟩

/-- C10 witness at a concrete row with missing ranks. -/
theorem upset_flag_missing_ranks_witness :
    is_upset sampleRecordB.winner_atp_rank sampleRecordB.loser_atp_rank =
      0 :=
  (upset_flag_missing_ranks sampleRecordB).1 (Or.inl rfl)
